import Mathlib

/-!
Verification of the trace-processing core of `dashboards-traces`.

The embedding below translates, from the TypeScript source:
  * the span input/output extraction function `extractSpanIO` together with
    its span classifier (src/unnamed/part_001, lines 151-240),
  * the per-trace category counter of `TraceFlyoutContent`
    (src/components/traces/TraceFlyoutContent.tsx, lines 123-138),
  * the filter/sort pipeline over extracted span data
    (src/unnamed/part_001, lines 593-598).

JavaScript attribute values (string, number, boolean, null, object, array)
are modelled by `JsonValue`; JavaScript numbers are modelled as integers,
which covers every value the source manipulates.  JavaScript truthiness is
modelled by `truthy`, and the short-circuiting `a || b` on attribute reads
by `jsOr`, with `none` playing the role of `undefined`/`null`.
-/

/-- A JSON-like attribute value, as stored in `span.attributes`. -/
inductive JsonValue where
  | null
  | bool (b : Bool)
  | num (n : Int)
  | str (s : String)
  | obj (fields : List (String × JsonValue))
  | arr (items : List JsonValue)

/-- JavaScript truthiness of a value: `""`, `0`, `false` and `null` are
falsy; every other string/number/boolean and every object or array is
truthy. -/
def truthy : JsonValue → Bool
  | .null => false
  | .bool b => b
  | .num n => n != 0
  | .str s => s != ""
  | .obj _ => true
  | .arr _ => true

/-- Models the test `typeof v === 'object'` on a non-null value: true exactly for objects and arrays. -/
def isObjectLike : JsonValue → Bool
  | .obj _ => true
  | .arr _ => true
  | _ => false

/-- Truthiness of a possibly-absent value (`undefined` is falsy). -/
def truthyOpt : Option JsonValue → Bool
  | some v => truthy v
  | none => false

/-- The JavaScript expression `a || b` over attribute reads: yields `a`
when `a` is present and truthy, otherwise `b`. -/
def jsOr (a b : Option JsonValue) : Option JsonValue :=
  match a with
  | some v => if truthy v then some v else b
  | none => b

/-- Lower-case an ASCII character, as `String.prototype.toLowerCase`
does on the ASCII range used by the classifier's keywords. -/
def lowerChar (c : Char) : Char :=
  if 'A' ≤ c ∧ c ≤ 'Z' then Char.ofNat (c.toNat + 32) else c

/-- Models `name.toLowerCase()` on the ASCII range. -/
def lowerStr (s : String) : String :=
  String.mk (s.toList.map lowerChar)

/-- Does `pat` occur at the head of `cs`? -/
def listHasPrefixChars : List Char → List Char → Bool
  | [], _ => true
  | _ :: _, [] => false
  | p :: ps, c :: cs => p == c && listHasPrefixChars ps cs

/-- Does `pat` occur anywhere in `cs`?  Models `String.prototype.includes`. -/
def listContainsChars (pat : List Char) : List Char → Bool
  | [] => listHasPrefixChars pat []
  | c :: cs => listHasPrefixChars pat (c :: cs) || listContainsChars pat cs

/-- Models `s.includes(pat)` of JavaScript strings. -/
def strContains (s pat : String) : Bool :=
  listContainsChars pat.toList s.toList

/-- A span record, following the `Span` shape used by `extractSpanIO`
and `createSpan`: identifiers, a free-text name, ISO timestamps, a status
and a string-keyed attribute map (modelled as an association list with
the object's key order). -/
structure Span where
  spanId : String
  traceId : String
  name : String
  startTime : String
  endTime : String
  status : String
  attributes : List (String × JsonValue)

/-- Attribute lookup `attrs[k]`: first binding of the key, `none` for
`undefined`. -/
def lookupAttr : List (String × JsonValue) → String → Option JsonValue
  | [], _ => none
  | (k, v) :: rest, key => if k = key then some v else lookupAttr rest key

/-- Attribute read `attrs[k]` for a span. -/
def spanAttr (s : Span) (k : String) : Option JsonValue :=
  lookupAttr s.attributes k

/-- The semantic category assigned to a span. -/
inductive Category where
  | agent
  | llm
  | tool
  | other
deriving DecidableEq

/-- The classifier inside `extractSpanIO` (part_001 lines 155-163):
first match wins among agent, llm, tool; default `other`.  Attribute
tests are JavaScript truthiness tests. -/
def spanCategory (s : Span) : Category :=
  let name := lowerStr s.name
  if strContains name "agent" || truthyOpt (spanAttr s "gen_ai.agent.name") then
    Category.agent
  else if strContains name "llm" || strContains name "bedrock" ||
      strContains name "converse" || truthyOpt (spanAttr s "gen_ai.system") then
    Category.llm
  else if strContains name "tool" || truthyOpt (spanAttr s "gen_ai.tool.name") then
    Category.tool
  else
    Category.other

/-- The category-specific input chain of `extractSpanIO`
(part_001 lines 170-214): nested `||` over attribute reads, ending in
`null`.  Category `other` has no chain, leaving the initial `null`. -/
def categoryInput (s : Span) : Category → Option JsonValue
  | .llm =>
      jsOr (spanAttr s "gen_ai.prompt")
        (jsOr (spanAttr s "gen_ai.prompt.0.content")
          (jsOr (spanAttr s "llm.prompts")
            (jsOr (spanAttr s "llm.input_messages")
              (jsOr (spanAttr s "input.value") none))))
  | .tool =>
      jsOr (spanAttr s "gen_ai.tool.input")
        (jsOr (spanAttr s "tool.input")
          (jsOr (spanAttr s "input.value")
            (jsOr (spanAttr s "tool.parameters") none)))
  | .agent =>
      jsOr (spanAttr s "gen_ai.agent.input")
        (jsOr (spanAttr s "agent.input")
          (jsOr (spanAttr s "input.value")
            (jsOr (spanAttr s "user.message") none)))
  | .other => none

/-- The category-specific output chain of `extractSpanIO`
(part_001 lines 178-213). -/
def categoryOutput (s : Span) : Category → Option JsonValue
  | .llm =>
      jsOr (spanAttr s "gen_ai.completion")
        (jsOr (spanAttr s "gen_ai.completion.0.content")
          (jsOr (spanAttr s "llm.completions")
            (jsOr (spanAttr s "llm.output_messages")
              (jsOr (spanAttr s "output.value") none))))
  | .tool =>
      jsOr (spanAttr s "gen_ai.tool.output")
        (jsOr (spanAttr s "tool.output")
          (jsOr (spanAttr s "output.value")
            (jsOr (spanAttr s "tool.result") none)))
  | .agent =>
      jsOr (spanAttr s "gen_ai.agent.output")
        (jsOr (spanAttr s "agent.output")
          (jsOr (spanAttr s "output.value")
            (jsOr (spanAttr s "assistant.message") none)))
  | .other => none

/-- The generic input fallback `attrs['input'] || attrs['request'] ||
attrs['message'] || null` (part_001 line 218). -/
def genericInput (s : Span) : Option JsonValue :=
  jsOr (spanAttr s "input") (jsOr (spanAttr s "request") (jsOr (spanAttr s "message") none))

/-- The generic output fallback `attrs['output'] || attrs['response'] ||
attrs['result'] || null` (part_001 line 221). -/
def genericOutput (s : Span) : Option JsonValue :=
  jsOr (spanAttr s "output") (jsOr (spanAttr s "response") (jsOr (spanAttr s "result") none))

/-- The resolved input after the `if (!input)` generic fallback
(part_001 lines 217-219), before JSON conversion. -/
def resolvedInput (s : Span) : Option JsonValue :=
  let i := categoryInput s (spanCategory s)
  if truthyOpt i then i else genericInput s

/-- The resolved output after the `if (!output)` generic fallback
(part_001 lines 220-222), before JSON conversion. -/
def resolvedOutput (s : Span) : Option JsonValue :=
  let o := categoryOutput s (spanCategory s)
  if truthyOpt o then o else genericOutput s

/-- Hexadecimal digit. -/
def hexDigit (n : Nat) : Char :=
  if n < 10 then Char.ofNat (48 + n) else Char.ofNat (87 + n)

/-- JSON string escaping as performed by `JSON.stringify`: quote,
backslash and control characters are escaped, everything else is kept. -/
def escapeJsonChar (c : Char) : String :=
  if c = '"' then "\\\""
  else if c = '\\' then "\\\\"
  else if c = '\n' then "\\n"
  else if c = '\r' then "\\r"
  else if c = '\t' then "\\t"
  else if c = Char.ofNat 8 then "\\b"
  else if c = Char.ofNat 12 then "\\f"
  else if c.toNat < 32 then
    "\\u00" ++ String.mk [hexDigit (c.toNat / 16), hexDigit (c.toNat % 16)]
  else
    String.mk [c]

/-- A JSON string literal with its quotes. -/
def quoteJson (s : String) : String :=
  "\"" ++ String.join (s.toList.map escapeJsonChar) ++ "\""

/-- Indentation of `n` spaces. -/
def spaces : Nat → String
  | 0 => ""
  | n + 1 => " " ++ spaces n

mutual
/-- Models `JSON.stringify(v, null, 2)` rendered at indentation level `ind`:
objects and arrays are spread over lines with two extra spaces per
level, empty ones print as `\x7b\x7d` / `[]`, keys keep insertion order. -/
def renderJson (ind : Nat) : JsonValue → String
  | .null => "null"
  | .bool true => "true"
  | .bool false => "false"
  | .num n => toString n
  | .str s => quoteJson s
  | .obj [] => "\x7b\x7d"
  | .obj fs => "\x7b\n" ++ renderFields (ind + 2) fs ++ "\n" ++ spaces ind ++ "\x7d"
  | .arr [] => "[]"
  | .arr es => "[\n" ++ renderItems (ind + 2) es ++ "\n" ++ spaces ind ++ "]"

/-- The members of an object under `JSON.stringify(v, null, 2)`. -/
def renderFields (ind : Nat) : List (String × JsonValue) → String
  | [] => ""
  | [(k, v)] => spaces ind ++ quoteJson k ++ ": " ++ renderJson ind v
  | (k, v) :: rest =>
      spaces ind ++ quoteJson k ++ ": " ++ renderJson ind v ++ ",\n" ++ renderFields ind rest

/-- The elements of an array under `JSON.stringify(v, null, 2)`. -/
def renderItems (ind : Nat) : List JsonValue → String
  | [] => ""
  | [v] => spaces ind ++ renderJson ind v
  | v :: rest => spaces ind ++ renderJson ind v ++ ",\n" ++ renderItems ind rest
end

/-- Models `JSON.stringify(v, null, 2)`. -/
def jsonStringify2 (v : JsonValue) : String :=
  renderJson 0 v

/-- The object-to-JSON conversion of `extractSpanIO` (part_001 lines
224-230): `if (x && typeof x === 'object') x = JSON.stringify(x, null, 2)`;
anything else passes through unchanged. -/
def convertValue : Option JsonValue → Option JsonValue
  | some v =>
      if truthy v && isObjectLike v then some (JsonValue.str (jsonStringify2 v)) else some v
  | none => none

/-- The result record of `extractSpanIO` (`SpanIOData` in the source).
The source declares `input`/`output` as `string | null`, but at runtime
non-string scalars flow through unconverted, so the fields are modelled
as arbitrary attribute values. -/
structure SpanIOData where
  span : Span
  category : Category
  input : Option JsonValue
  output : Option JsonValue
  toolName : Option JsonValue
  modelId : Option JsonValue

/-- The function `extractSpanIO` (part_001 lines 151-240): classify the span, resolve
input and output through the category chain then the generic fallback,
JSON-stringify structured values, and read `toolName` / `modelId` from
their own fallback chains (which have no trailing `|| null`). -/
def extractSpanIO (s : Span) : SpanIOData :=
  let category := spanCategory s
  { span := s
    category := category
    input := convertValue (resolvedInput s)
    output := convertValue (resolvedOutput s)
    toolName := jsOr (spanAttr s "gen_ai.tool.name") (spanAttr s "tool.name")
    modelId :=
      jsOr (spanAttr s "gen_ai.request.model")
        (jsOr (spanAttr s "llm.model_name") (spanAttr s "gen_ai.system")) }

/-- The per-trace category counter of `TraceFlyoutContent`
(TraceFlyoutContent.tsx lines 123-138): for each span it tests, in
order, llm (name only), tool (name or `gen_ai.tool.name`), agent (name
only), else other. -/
def flyoutSpanCategory (s : Span) : Category :=
  let name := lowerStr s.name
  if strContains name "llm" || strContains name "bedrock" || strContains name "converse" then
    Category.llm
  else if strContains name "tool" || truthyOpt (spanAttr s "gen_ai.tool.name") then
    Category.tool
  else if strContains name "agent" then
    Category.agent
  else
    Category.other

/-- One decimal digit. -/
def charDigit (c : Char) : Option Nat :=
  if '0' ≤ c ∧ c ≤ '9' then some (c.toNat - 48) else none

/-- Reads a non-empty all-digit character list as a natural number. -/
def natFromCharsAux : List Char → Nat → Option Nat
  | [], acc => some acc
  | c :: cs, acc =>
      match charDigit c with
      | some d => natFromCharsAux cs (acc * 10 + d)
      | none => none

/-- Reads a non-empty all-digit character list as a natural number. -/
def natFromChars : List Char → Option Nat
  | [] => none
  | cs => natFromCharsAux cs 0

/-- Splits a character list on a separator character. -/
def splitOnCharAux (sep : Char) : List Char → List Char → List (List Char)
  | [], acc => [acc.reverse]
  | c :: cs, acc =>
      if c = sep then acc.reverse :: splitOnCharAux sep cs []
      else splitOnCharAux sep cs (c :: acc)

/-- Splits a character list on a separator character. -/
def splitOnChar (sep : Char) (cs : List Char) : List (List Char) :=
  splitOnCharAux sep cs []

/-- The seconds field with its optional `.mmm` fraction. -/
def parseSecondsMs (cs : List Char) : Option (Nat × Nat) :=
  match splitOnChar '.' cs with
  | [ss] => do pure (← natFromChars ss, 0)
  | [ss, ms] => do pure (← natFromChars ss, ← natFromChars ms)
  | _ => none

/-- Models `new Date(s).getTime()` on the ISO-8601 UTC timestamps the
source produces (`YYYY-MM-DDTHH:MM:SS[.mmm]Z`): `some` of a key that is
strictly monotone in chronological order (not the real epoch value,
which the sort never needs), `none` for a non-parseable string, which
models the `NaN` result of `Date` parsing. -/
def parseDateMs (s : String) : Option Int :=
  match splitOnChar 'T' s.toList with
  | [d, t] =>
      match splitOnChar '-' d with
      | [y, mo, da] =>
          match t.reverse with
          | 'Z' :: revRest =>
              match splitOnChar ':' revRest.reverse with
              | [h, mi, sec] => do
                  let y ← natFromChars y
                  let mo ← natFromChars mo
                  let da ← natFromChars da
                  let h ← natFromChars h
                  let mi ← natFromChars mi
                  let (ss, ms) ← parseSecondsMs sec
                  if mo ≥ 1 ∧ mo ≤ 12 ∧ da ≥ 1 ∧ da ≤ 31 ∧ h < 24 ∧ mi < 60 ∧ ss < 62 then
                    pure (((((((y * 12 + mo) * 32 + da) * 24 + h) * 60 + mi) * 62 + ss) * 1000 + ms : Nat) : Int)
                  else none
              | _ => none
          | _ => none
      | _ => none
  | _ => none

/-- The sort comparator of part_001 lines 596-598:
`new Date(a.span.startTime).getTime() - new Date(b.span.startTime).getTime()`.
When either `getTime()` is `NaN` the subtraction is `NaN`, and the
ECMAScript `SortCompare` operation treats a `NaN` comparator result as
`+0`, so such pairs compare as equal. -/
def startTimeCompare (a b : SpanIOData) : Int :=
  match parseDateMs a.span.startTime, parseDateMs b.span.startTime with
  | some x, some y => x - y
  | _, _ => 0

/-- Stable insertion of `x` into a list sorted by the comparator: `x`
goes after every element that does not compare strictly greater. -/
def insertByCompare (cmp : SpanIOData → SpanIOData → Int) (x : SpanIOData) :
    List SpanIOData → List SpanIOData
  | [] => [x]
  | y :: ys =>
      if cmp y x ≤ 0 then y :: insertByCompare cmp x ys else x :: y :: ys

/-- A stable comparator sort, modelling `Array.prototype.sort` (stable
per ECMAScript 2019). -/
def stableSortByCompare (cmp : SpanIOData → SpanIOData → Int)
    (l : List SpanIOData) : List SpanIOData :=
  l.foldl (fun acc x => insertByCompare cmp x acc) []

/-- The pipeline of part_001 lines 593-598: map `extractSpanIO` over the
spans, keep those with a truthy input or output, and sort by start
time. -/
def spanIOPipeline (spans : List Span) : List SpanIOData :=
  stableSortByCompare startTimeCompare
    (((spans.map extractSpanIO).filter (fun d => truthyOpt d.input || truthyOpt d.output)))

/-! Spec-side definitions, written from the wording of the specification
so they can be compared with the embeddings above. -/

/-- Presence of an attribute key, regardless of its value. -/
def presentAttr (s : Span) (k : String) : Bool :=
  (spanAttr s k).isSome

/-- Written from the claim wording of the classifier policy, reading
the attribute tests as bare presence tests: agent if the lower-cased
name contains "agent" or `gen_ai.agent.name` is present; otherwise llm
on "llm"/"bedrock"/"converse" or presence of `gen_ai.system`; otherwise
tool on "tool" or presence of `gen_ai.tool.name`; otherwise other. -/
def specCategoryPresent (s : Span) : Category :=
  let name := lowerStr s.name
  if strContains name "agent" || presentAttr s "gen_ai.agent.name" then
    Category.agent
  else if strContains name "llm" || strContains name "bedrock" ||
      strContains name "converse" || presentAttr s "gen_ai.system" then
    Category.llm
  else if strContains name "tool" || presentAttr s "gen_ai.tool.name" then
    Category.tool
  else
    Category.other

/-- Is the value the JSON null? -/
def isNullValue : JsonValue → Bool
  | .null => true
  | _ => false

/-- Written from the claim wording of the extractor: the value of the
first candidate key that is present with a non-null value, in list
order. -/
def firstPresentNonNull (s : Span) : List String → Option JsonValue
  | [] => none
  | k :: ks =>
      match spanAttr s k with
      | some v => if isNullValue v then firstPresentNonNull s ks else some v
      | none => firstPresentNonNull s ks

/-- The value of the first candidate key that is present with a truthy
value, in list order (the semantics the code actually implements via
its chains of `||`). -/
def firstTruthyKey (s : Span) : List String → Option JsonValue
  | [] => none
  | k :: ks =>
      match spanAttr s k with
      | some v => if truthy v then some v else firstTruthyKey s ks
      | none => firstTruthyKey s ks

/-- The documented candidate keys for llm input, in order. -/
def llmInputKeys : List String :=
  ["gen_ai.prompt", "gen_ai.prompt.0.content", "llm.prompts", "llm.input_messages", "input.value"]

/-- The documented candidate keys for llm output, in order. -/
def llmOutputKeys : List String :=
  ["gen_ai.completion", "gen_ai.completion.0.content", "llm.completions",
   "llm.output_messages", "output.value"]

/-! Concrete spans used by counterexamples and witnesses, built like
the `createSpan` helper of the source tests. -/

/-- A span with the `createSpan` defaults, a given name and attributes. -/
def mkSpan (name : String) (attrs : List (String × JsonValue)) : Span :=
  { spanId := "test-span-id"
    traceId := "test-trace-id"
    name := name
    startTime := "2024-01-01T00:00:00Z"
    endTime := "2024-01-01T00:00:01Z"
    status := "OK"
    attributes := attrs }

/-- A span named "agent-tool" with no attributes. -/
def agentToolSpan : Span := mkSpan "agent-tool" []

/-- A span whose only attribute is a present-but-empty agent name. -/
def emptyAgentNameSpan : Span := mkSpan "plain-span" [("gen_ai.agent.name", JsonValue.str "")]

/-- An llm span with an empty `gen_ai.prompt` and a later candidate. -/
def emptyPromptSpan : Span :=
  mkSpan "llm.call" [("gen_ai.prompt", JsonValue.str ""), ("input.value", JsonValue.str "P2")]

/-- The llm span of the precedence example, with both `gen_ai.prompt`
and `input.value` set. -/
def promptP1Span : Span :=
  mkSpan "llm.call" [("gen_ai.prompt", JsonValue.str "P1"), ("input.value", JsonValue.str "P2")]

/-- An llm span whose prompt is an object value. -/
def objectPromptSpan : Span :=
  mkSpan "llm.call"
    [("gen_ai.prompt", JsonValue.obj [("role", JsonValue.str "user"), ("content", JsonValue.str "Hello")])]

/-- An uncategorised span carrying only a generic `request` attribute. -/
def requestOnlySpan : Span := mkSpan "random-span" [("request", JsonValue.str "request data")]

/-- A span with no attributes and a name matching no keyword. -/
def randomSpan : Span := mkSpan "random-span" []

/-- An llm span with an input and no output. -/
def inputOnlySpan : Span := mkSpan "llm.call" [("gen_ai.prompt", JsonValue.str "input only")]

/-- An llm span with an output and no input. -/
def outputOnlySpan : Span := mkSpan "llm.call" [("gen_ai.completion", JsonValue.str "output only")]

/-- An uncategorised span with non-string scalar input and output. -/
def scalarIOSpan : Span :=
  mkSpan "random-span" [("input", JsonValue.num 42), ("output", JsonValue.bool true)]

/-- A span whose `startTime` cannot be parsed as a date. -/
def badTimeSpan : Span :=
  { spanId := "bad"
    traceId := "trace-1"
    name := "llm.call"
    startTime := "not-a-date"
    endTime := "not-a-date"
    status := "OK"
    attributes := [("gen_ai.prompt", JsonValue.str "x")] }

/-- A span with a well-formed `startTime`. -/
def goodTimeSpan : Span :=
  { spanId := "good"
    traceId := "trace-1"
    name := "llm.call"
    startTime := "2024-01-01T00:00:01Z"
    endTime := "2024-01-01T00:00:02Z"
    status := "OK"
    attributes := [("gen_ai.prompt", JsonValue.str "y")] }

/-! Helper lemmas shared by several claims. -/

/-- Objects and arrays are truthy values. -/
theorem truthy_of_isObjectLike (v : JsonValue) (h : isObjectLike v = true) : truthy v = true := by
  cases v <;> simp_all [isObjectLike, truthy]

/-- The category field of the extraction result is the classifier value. -/
theorem extractSpanIO_category (s : Span) : ( extractSpanIO s).category = spanCategory s := rfl

/-- Prepending a key to a candidate list reads the key through `jsOr`. -/
theorem firstTruthyKey_cons (s : Span) (k : String) (ks : List String) :
    firstTruthyKey s (k :: ks) = jsOr (spanAttr s k) (firstTruthyKey s ks) := rfl

/-- C1 (counterexample): the claim reads the attribute tests of the
classifier as bare presence tests.  On the span `emptyAgentNameSpan`,
whose `gen_ai.agent.name` is present but the empty string, the claimed
policy yields `agent` while `extractSpanIO` yields `other`: the code
tests JavaScript truthiness, not presence. -/
theorem C1_presence_counterexample :
    specCategoryPresent emptyAgentNameSpan = Category.agent ∧
    ( extractSpanIO emptyAgentNameSpan).category = Category.other :=
  ⟨rfl, rfl⟩

/-- C1 (amended): the classifier evaluates its rules in strict order
with the first match winning, where each attribute test demands a
present, truthy value: `agent` on a name containing "agent" or a truthy
`gen_ai.agent.name`; otherwise `llm` on "llm"/"bedrock"/"converse" or a
truthy `gen_ai.system`; otherwise `tool` on "tool" or a truthy
`gen_ai.tool.name`; otherwise `other`.  In particular the span named
"agent-tool" with no attributes classifies as `agent`. -/
theorem C1_classifier_strict_order (s : Span) :
    ((( extractSpanIO s).category = Category.agent ↔
        (strContains (lowerStr s.name) "agent" ||
          truthyOpt (spanAttr s "gen_ai.agent.name")) = true) ∧
      (( extractSpanIO s).category = Category.llm ↔
        (strContains (lowerStr s.name) "agent" ||
          truthyOpt (spanAttr s "gen_ai.agent.name")) = false ∧
        (strContains (lowerStr s.name) "llm" || strContains (lowerStr s.name) "bedrock" ||
          strContains (lowerStr s.name) "converse" ||
          truthyOpt (spanAttr s "gen_ai.system")) = true) ∧
      (( extractSpanIO s).category = Category.tool ↔
        (strContains (lowerStr s.name) "agent" ||
          truthyOpt (spanAttr s "gen_ai.agent.name")) = false ∧
        (strContains (lowerStr s.name) "llm" || strContains (lowerStr s.name) "bedrock" ||
          strContains (lowerStr s.name) "converse" ||
          truthyOpt (spanAttr s "gen_ai.system")) = false ∧
        (strContains (lowerStr s.name) "tool" ||
          truthyOpt (spanAttr s "gen_ai.tool.name")) = true) ∧
      (( extractSpanIO s).category = Category.other ↔
        (strContains (lowerStr s.name) "agent" ||
          truthyOpt (spanAttr s "gen_ai.agent.name")) = false ∧
        (strContains (lowerStr s.name) "llm" || strContains (lowerStr s.name) "bedrock" ||
          strContains (lowerStr s.name) "converse" ||
          truthyOpt (spanAttr s "gen_ai.system")) = false ∧
        (strContains (lowerStr s.name) "tool" ||
          truthyOpt (spanAttr s "gen_ai.tool.name")) = false)) ∧
    ( extractSpanIO agentToolSpan).category = Category.agent := by
  refine ⟨?_, rfl⟩
  cases h1 : strContains (lowerStr s.name) "agent" ||
      truthyOpt (spanAttr s "gen_ai.agent.name") with
  | true => simp [extractSpanIO_category, spanCategory, h1]
  | false =>
    cases h2 : strContains (lowerStr s.name) "llm" || strContains (lowerStr s.name) "bedrock" ||
        strContains (lowerStr s.name) "converse" || truthyOpt (spanAttr s "gen_ai.system") with
    | true => simp [extractSpanIO_category, spanCategory, h1, h2]
    | false =>
      cases h3 : strContains (lowerStr s.name) "tool" ||
          truthyOpt (spanAttr s "gen_ai.tool.name") with
      | true => simp [extractSpanIO_category, spanCategory, h1, h2, h3]
      | false => simp [extractSpanIO_category, spanCategory, h1, h2, h3]

/-- An empty candidate list yields no value. -/
theorem firstTruthyKey_nil (s : Span) : firstTruthyKey s [] = none := rfl

/-- C2 (counterexample): the claim promises the value of the first
present, non-null key.  On `emptyPromptSpan`, `gen_ai.prompt` is present
and non-null but the empty string, so the claimed order yields `""`;
`extractSpanIO` skips it as falsy and returns `input.value` instead. -/
theorem C2_non_null_counterexample :
    firstPresentNonNull emptyPromptSpan llmInputKeys = some (JsonValue.str "") ∧
    ( extractSpanIO emptyPromptSpan).input = some (JsonValue.str "P2") :=
  ⟨rfl, rfl⟩

/-- C2 (amended): for spans classified `llm` the category-specific
resolution returns the value of the first present, truthy key, in the
exact order `gen_ai.prompt`, `gen_ai.prompt.0.content`, `llm.prompts`,
`llm.input_messages`, `input.value` for input and symmetrically over
`gen_ai.completion`, `gen_ai.completion.0.content`, `llm.completions`,
`llm.output_messages`, `output.value` for output; present keys holding
falsy values (`""`, `0`, `false`, `null`) are skipped.  In particular a
span with both `gen_ai.prompt` set to "P1" and `input.value` set to
"P2" yields input "P1". -/
theorem C2_llm_key_order :
    (∀ s : Span,
      categoryInput s Category.llm = firstTruthyKey s llmInputKeys ∧
      categoryOutput s Category.llm = firstTruthyKey s llmOutputKeys) ∧
    ( extractSpanIO promptP1Span).input = some (JsonValue.str "P1") := by
  refine ⟨fun s => ⟨?_, ?_⟩, rfl⟩ <;>
    simp [categoryInput, categoryOutput, llmInputKeys, llmOutputKeys,
      firstTruthyKey_cons, firstTruthyKey_nil]

/-- C3 (counterexample): the extractor's classifier and the flyout's
per-trace category counter disagree.  On the span named "agent-tool"
with no attributes, `extractSpanIO` classifies `agent` (agent rule
first) while the flyout counter counts it under `tool` (it checks llm,
then tool, then agent). -/
theorem C3_flyout_disagrees_counterexample :
    ( extractSpanIO agentToolSpan).category = Category.agent ∧
    flyoutSpanCategory agentToolSpan = Category.tool :=
  ⟨rfl, rfl⟩

/-- C3 (amended): the two classifier embeddings implement different
precedences.  The flyout counter checks llm first, then tool, then
agent, and ignores the `gen_ai.agent.name` and `gen_ai.system`
attributes; hence every span whose lower-cased name contains both
"agent" and "tool" but none of the llm keywords is classified `agent`
by `extractSpanIO` and counted `tool` by the flyout. -/
theorem C3_precedence_divergence (s : Span)
    (hAgent : strContains (lowerStr s.name) "agent" = true)
    (hTool : strContains (lowerStr s.name) "tool" = true)
    (hLlm : strContains (lowerStr s.name) "llm" = false)
    (hBedrock : strContains (lowerStr s.name) "bedrock" = false)
    (hConverse : strContains (lowerStr s.name) "converse" = false) :
    ( extractSpanIO s).category = Category.agent ∧
    flyoutSpanCategory s = Category.tool := by
  constructor
  · simp [extractSpanIO_category, spanCategory, hAgent]
  · simp [flyoutSpanCategory, hTool, hLlm, hBedrock, hConverse]

/-- C3 (witness): the divergence theorem applied to the concrete span
named "agent-tool". -/
theorem C3_precedence_divergence_witness :
    ( extractSpanIO agentToolSpan).category = Category.agent ∧
    flyoutSpanCategory agentToolSpan = Category.tool :=
  C3_precedence_divergence agentToolSpan rfl rfl rfl rfl rfl

/-- C4: when the resolved input (or output) value is a structured
object or array, the extractor returns its JSON serialization with
2-space indentation, `JSON.stringify(value, null, 2)` as modelled by
`jsonStringify2`; any other resolved value, in particular a plain
string, passes through unchanged. -/
theorem C4_object_pretty_printed (s : Span) (v : JsonValue) :
    (resolvedInput s = some v →
      ( extractSpanIO s).input =
        some (if isObjectLike v then JsonValue.str (jsonStringify2 v) else v)) ∧
    (resolvedOutput s = some v →
      ( extractSpanIO s).output =
        some (if isObjectLike v then JsonValue.str (jsonStringify2 v) else v)) := by
  constructor <;> intro h
  · show convertValue (resolvedInput s) = _
    rw [h]
    cases ho : isObjectLike v with
    | true => simp [convertValue, ho, truthy_of_isObjectLike v ho]
    | false => simp [convertValue, ho]
  · show convertValue (resolvedOutput s) = _
    rw [h]
    cases ho : isObjectLike v with
    | true => simp [convertValue, ho, truthy_of_isObjectLike v ho]
    | false => simp [convertValue, ho]

/-- C4 (witness): on a span whose `gen_ai.prompt` is the object with
fields role "user" and content "Hello", the extractor returns the
two-space pretty-printed JSON text of that object. -/
theorem C4_object_pretty_printed_witness :
    resolvedInput objectPromptSpan =
      some (JsonValue.obj [("role", JsonValue.str "user"), ("content", JsonValue.str "Hello")]) ∧
    ( extractSpanIO objectPromptSpan).input =
      some (JsonValue.str "\x7b\n  \"role\": \"user\",\n  \"content\": \"Hello\"\n\x7d") := by
  refine ⟨rfl, ?_⟩
  have h :=
    (C4_object_pretty_printed objectPromptSpan
      (JsonValue.obj [("role", JsonValue.str "user"), ("content", JsonValue.str "Hello")])).1 rfl
  simpa using h

/-- C5: for every span of every category, including `other`, when the
category-specific resolution yields no (truthy) input value, the
extractor falls back, in order, to the generic keys `input`, `request`,
`message`; independently, when no output value was resolved it falls
back to `output`, `response`, `result`. -/
theorem C5_generic_fallback (s : Span) :
    (truthyOpt (categoryInput s (spanCategory s)) = false →
      resolvedInput s =
        jsOr (spanAttr s "input")
          (jsOr (spanAttr s "request") (jsOr (spanAttr s "message") none))) ∧
    (truthyOpt (categoryOutput s (spanCategory s)) = false →
      resolvedOutput s =
        jsOr (spanAttr s "output")
          (jsOr (spanAttr s "response") (jsOr (spanAttr s "result") none))) := by
  constructor <;> intro h
  · simp [resolvedInput, genericInput, h]
  · simp [resolvedOutput, genericOutput, h]

/-- C5 (witness): the fallback theorem applied to a span of category
`other` carrying only a generic `request` attribute. -/
theorem C5_generic_fallback_witness :
    truthyOpt (categoryInput requestOnlySpan (spanCategory requestOnlySpan)) = false ∧
    resolvedInput requestOnlySpan = some (JsonValue.str "request data") := by
  refine ⟨rfl, ?_⟩
  have h := (C5_generic_fallback requestOnlySpan).1 rfl
  simpa using h

/-- C6: the extractor is total on arbitrary attribute maps and
degrades to `other` with null input and output: the span named
"random-span" with empty attributes yields category `other` and no
input or output; and input and output are resolved independently, so a
span can have an input without an output and an output without an
input. -/
theorem C6_no_match_degrades :
    ( extractSpanIO randomSpan).category = Category.other ∧
    ( extractSpanIO randomSpan).input = none ∧
    ( extractSpanIO randomSpan).output = none ∧
    ( extractSpanIO inputOnlySpan).input = some (JsonValue.str "input only") ∧
    ( extractSpanIO inputOnlySpan).output = none ∧
    ( extractSpanIO outputOnlySpan).input = none ∧
    ( extractSpanIO outputOnlySpan).output = some (JsonValue.str "output only") :=
  ⟨rfl, rfl, rfl, rfl, rfl, rfl, rfl⟩

/-- Inserting one element grows the list by one. -/
theorem insertByCompare_length (cmp : SpanIOData → SpanIOData → Int) (x : SpanIOData)
    (l : List SpanIOData) : (insertByCompare cmp x l).length = l.length + 1 := by
  induction l with
  | nil => rfl
  | cons y ys ih =>
    unfold insertByCompare
    split <;> simp [ih]

/-- Folding stable insertion preserves total length. -/
theorem stableSort_foldl_length (cmp : SpanIOData → SpanIOData → Int) :
    ∀ (l acc : List SpanIOData),
      (l.foldl (fun a x => insertByCompare cmp x a) acc).length = l.length + acc.length := by
  intro l
  induction l with
  | nil => intro acc; simp
  | cons x xs ih =>
    intro acc
    simp only [List.foldl_cons, ih, insertByCompare_length, List.length_cons]
    omega

/-- The stable sort is a permutation in size: it drops nothing. -/
theorem stableSortByCompare_length (cmp : SpanIOData → SpanIOData → Int)
    (l : List SpanIOData) : (stableSortByCompare cmp l).length = l.length := by
  unfold stableSortByCompare
  simpa using stableSort_foldl_length cmp l []

/-- C7 (counterexample): on an input containing the span "bad" whose
`startTime` is the non-parseable string "not-a-date", the pipeline of
part_001 lines 593-598 reports no error of any kind: it completes
normally, keeps the offending span, and leaves it where the stable sort
found it, because the comparator result `NaN` is treated as zero. -/
theorem C7_silent_on_bad_timestamp_counterexample :
    parseDateMs "not-a-date" = none ∧
    (spanIOPipeline [badTimeSpan, goodTimeSpan]).map (fun d => d.span.spanId) =
      ["bad", "good"] :=
  ⟨rfl, rfl⟩

/-- C7 (amended): the code has no `MalformedInputError` and no
caller-visible failure mode at all.  A non-parseable `startTime` makes
`new Date(...).getTime()` return `NaN`; the sort comparator then
returns `NaN`, which ECMAScript `SortCompare` treats as zero, so the
span compares equal to every other span; and the pipeline always
returns exactly the filtered spans, never an error. -/
theorem C7_no_failure_mode :
    (∀ a b : SpanIOData, parseDateMs a.span.startTime = none →
      startTimeCompare a b = 0 ∧ startTimeCompare b a = 0) ∧
    (∀ spans : List Span,
      (spanIOPipeline spans).length =
        ((spans.map extractSpanIO).filter
          (fun d => truthyOpt d.input || truthyOpt d.output)).length) := by
  constructor
  · intro a b h
    constructor <;>
      cases hb : parseDateMs b.span.startTime <;> simp [startTimeCompare, h, hb]
  · intro spans
    unfold spanIOPipeline
    exact stableSortByCompare_length _ _

/-- C7 (witness): the comparator lemma applied to the extraction of the
concrete spans "bad" and "good". -/
theorem C7_no_failure_mode_witness :
    parseDateMs ( extractSpanIO badTimeSpan).span.startTime = none ∧
    startTimeCompare ( extractSpanIO badTimeSpan) ( extractSpanIO goodTimeSpan) = 0 ∧
    startTimeCompare ( extractSpanIO goodTimeSpan) ( extractSpanIO badTimeSpan) = 0 := by
  refine ⟨rfl, ?_, ?_⟩
  · exact (C7_no_failure_mode.1 ( extractSpanIO badTimeSpan) ( extractSpanIO goodTimeSpan) rfl).1
  · exact (C7_no_failure_mode.1 ( extractSpanIO badTimeSpan) ( extractSpanIO goodTimeSpan) rfl).2

/-- C8: the extractor is a deterministic function of its input span —
equal spans produce equal results — and it does not modify its input:
the `span` field of the result is the input span itself, unchanged. -/
theorem C8_pure_deterministic :
    (∀ s t : Span, s = t → extractSpanIO s = extractSpanIO t) ∧
    (∀ s : Span, ( extractSpanIO s).span = s) :=
  ⟨fun _ _ h => h ▸ rfl, fun _ => rfl⟩

/-- C8 (witness): determinism and input preservation at the concrete
span "random-span". -/
theorem C8_pure_deterministic_witness :
    extractSpanIO randomSpan = extractSpanIO randomSpan ∧
    ( extractSpanIO randomSpan).span = randomSpan :=
  ⟨C8_pure_deterministic.1 randomSpan randomSpan rfl, C8_pure_deterministic.2 randomSpan⟩

/-- C9: a present attribute holding a falsy value (empty string, zero,
false or null) behaves exactly like an absent attribute in the
classifier and in the input/output fallback chains: every chain step
`attrs[k] || rest` yields `rest` for a falsy value just as for an
absent key, and a falsy `gen_ai.agent.name` cannot make a span `agent`
unless its name already does. -/
theorem C9_falsy_as_absent :
    (∀ (v : JsonValue) (rest : Option JsonValue),
      truthy v = false → jsOr (some v) rest = jsOr none rest) ∧
    (∀ s : Span,
      truthyOpt (spanAttr s "gen_ai.agent.name") = false →
      strContains (lowerStr s.name) "agent" = false →
      ( extractSpanIO s).category ≠ Category.agent) := by
  constructor
  · intro v rest h
    simp [jsOr, h]
  · intro s h1 h2
    rw [extractSpanIO_category]
    simp only [spanCategory]
    rw [if_neg (by simp [h1, h2])]
    split
    · simp
    · split <;> simp

/-- C9 (witness): a present-but-empty `gen_ai.agent.name` is skipped in
a chain step and does not classify the concrete span as `agent`. -/
theorem C9_falsy_as_absent_witness :
    jsOr (some (JsonValue.str "")) (some (JsonValue.str "next")) =
      jsOr none (some (JsonValue.str "next")) ∧
    ( extractSpanIO emptyAgentNameSpan).category ≠ Category.agent :=
  ⟨C9_falsy_as_absent.1 (JsonValue.str "") (some (JsonValue.str "next")) rfl,
   C9_falsy_as_absent.2 emptyAgentNameSpan rfl rfl⟩

/-- C10: a resolved input or output that is not an object or array —
in particular a truthy non-string scalar such as a nonzero number or
`true` — is returned unchanged, not JSON-serialized and not coerced to
a string, so the declared string-or-null result type is not enforced at
runtime. -/
theorem C10_scalar_passthrough (s : Span) (v : JsonValue)
    (h : isObjectLike v = false) :
    (resolvedInput s = some v → ( extractSpanIO s).input = some v) ∧
    (resolvedOutput s = some v → ( extractSpanIO s).output = some v) := by
  constructor <;> intro hr
  · show convertValue (resolvedInput s) = _
    rw [hr]
    simp [convertValue, h]
  · show convertValue (resolvedOutput s) = _
    rw [hr]
    simp [convertValue, h]

/-- C10 (witness): a span with generic `input` 42 and `output` true
keeps the number and the boolean as extraction results. -/
theorem C10_scalar_passthrough_witness :
    ( extractSpanIO scalarIOSpan).input = some (JsonValue.num 42) ∧
    ( extractSpanIO scalarIOSpan).output = some (JsonValue.bool true) :=
  ⟨(C10_scalar_passthrough scalarIOSpan (JsonValue.num 42) rfl).1 rfl,
   (C10_scalar_passthrough scalarIOSpan (JsonValue.bool true) rfl).2 rfl⟩
